import Mathlib

/-!
Shallow embedding of the resume-analysis backend (491jobseeker-backend).
The definitions below are translated from the TypeScript sources:

* `ResumeService` — `src/services/ResumeService.ts` (file validation,
  GridFS-backed metadata lookup and deletion);
* `GLMService` — `src/services/GLMService.ts` (input precondition,
  response validation with JSON extraction, retry with backoff);
* `ResumeController` — `src/controllers/resumeController.ts`
  (upload / get / analyze / delete orchestration);
* `FilteredJobService` — `src/models/FilteredJob.ts` (mongo filter
  construction for the job-listing query).

External library behaviour that the sources rely on is modelled from the
libraries' documented semantics: `JSON.parse` as a JSON grammar parser,
the JS regex `\x7b[\s\S]*\x7d` as the span from the first opening brace
to the last closing brace, `new ObjectId(s)` as a 24-hex-digit check that
throws on malformed input, and `GridFSBucket.delete` which raises
"File not found for id" when no document matched.
-/

/-! ## Preliminaries -/

/-- Hex digit test (used by the `ObjectId` constructor model). -/
def isHexDigitChar (c : Char) : Bool :=
  (('0' ≤ c ∧ c ≤ '9') ∨ ('a' ≤ c ∧ c ≤ 'f') ∨ ('A' ≤ c ∧ c ≤ 'F') : Prop) |> decide

/-- Model of the BSON `ObjectId` constructor's input check: a string is a
valid ObjectId literal iff it is exactly 24 hexadecimal characters.
`new ObjectId(s)` throws a `BSONError` otherwise. -/
def validObjectIdStr (s : String) : Bool :=
  s.length = 24 && s.toList.all isHexDigitChar

/-- Association-list lookup keyed by string ids (models a mongo collection
keyed by `_id`). -/
def lookupId {α : Type} (l : List (String × α)) (k : String) : Option α :=
  match l with
  | [] => none
  | (k1, v) :: rest => if k1 = k then some v else lookupId rest k

/-! ## ResumeService (src/services/ResumeService.ts) -/

namespace ResumeService

/-- The fields of a multer upload that `validateFile` inspects. -/
structure MFile where
  originalname : String
  mimetype : String
  size : Nat

/-- `ALLOWED_MIME_TYPES` from ResumeService.ts. -/
def ALLOWED_MIME_TYPES : List String :=
  [ "application/pdf"
  , "application/msword"
  , "application/vnd.openxmlformats-officedocument.wordprocessingml.document"
  , "text/plain" ]

/-- `MAX_FILE_SIZE = 5 * 1024 * 1024` from ResumeService.ts. -/
def MAX_FILE_SIZE : Nat := 5 * 1024 * 1024

/-- `ResumeService.validateFile`: throws on oversized files, then on
MIME types outside the allow-list; returns normally otherwise. -/
def validateFile (file : MFile) : Except String Unit :=
  if file.size > MAX_FILE_SIZE then
    .error "File size exceeds 5MB limit"
  else if ¬ (file.mimetype ∈ ALLOWED_MIME_TYPES) then
    .error "Invalid file type. Allowed: PDF, DOC, DOCX, TXT"
  else
    .ok ()

/-- Metadata held in a GridFS files document for a stored resume. -/
structure ResumeMeta where
  fileName : String
  userId : String
  mimeType : String
  uploadDate : Nat

/-- A stored GridFS file: metadata plus payload bytes. -/
structure StoredFile where
  meta : ResumeMeta
  bytes : List Nat

/-- The GridFS `resumes` files collection, keyed by id string. -/
def FileStore : Type := List (String × StoredFile)

/-- `ResumeService.getResumeById`: builds `new ObjectId(resumeId)` — which
throws a `BSONError` on a malformed id — then looks the id up in the files
collection, returning `null` (here `none`) when no document matches. -/
def getResumeById (store : FileStore) (resumeId : String) :
    Except String (Option ResumeMeta) :=
  if ¬ validObjectIdStr resumeId then
    .error "BSONError: input must be a 24 character hex string"
  else
    .ok ((lookupId store resumeId).map StoredFile.meta)

/-- `GridFSBucket.delete` (mongodb driver): deletes the matching files
document and its chunks; raises `File not found for id ...` when the
files collection held no matching document. -/
def gridfsDelete (store : FileStore) (oid : String) :
    Except String FileStore :=
  if (lookupId store oid).isSome then
    .ok (store.filter (fun p => p.1 ≠ oid))
  else
    .error ("File not found for id " ++ oid)

/-- `ResumeService.deleteResume`: `bucket.delete(new ObjectId(resumeId))`. -/
def deleteResume (store : FileStore) (resumeId : String) :
    Except String FileStore :=
  if ¬ validObjectIdStr resumeId then
    .error "BSONError: input must be a 24 character hex string"
  else
    gridfsDelete store resumeId

end ResumeService

/-! ## FilteredJobService (src/models/FilteredJob.ts) -/

namespace FilteredJobService

/-- The query fields of `FilteredJobQuery` that take part in filter
construction inside `getJobs`. -/
structure FilteredJobQuery where
  q : Option String := none
  location : Option String := none
  employment_type : Option String := none
  work_arrangement : Option String := none
  platform : Option String := none
  min_score : Option ℚ := none
  date : Option String := none

/-- The mongo filter object that `getJobs` constructs.  The `$or` clause
is a single mutable slot (`filter.$or` in the source), holding a list of
(field, case-insensitive-regex-pattern) conditions. -/
structure MongoFilter where
  analysisPassed : Bool
  date : Option String := none
  platform : Option String := none
  matchScoreGte : Option ℚ := none
  orClause : Option (List (String × String)) := none
  employment_type : Option String := none
  work_arrangement : Option String := none
deriving DecidableEq

/-- The `$or` list the location filter assigns (city/state/job_location). -/
def locationOr (loc : String) : List (String × String) :=
  [("city", loc), ("state", loc), ("job_location", loc)]

/-- The `$or` list the keyword search assigns
(job_title/job_description/company_name_normalized). -/
def keywordOr (kw : String) : List (String × String) :=
  [("job_title", kw), ("job_description", kw), ("company_name_normalized", kw)]

/-- The filter-construction section of `FilteredJobService.getJobs`,
mirroring the source's assignment order: `analysis.passed`, date,
platform, min_score, location (`filter.$or = ...`), employment_type,
work_arrangement, and finally the keyword search which assigns
`filter.$or` again. -/
def buildFilter (query : FilteredJobQuery) : MongoFilter :=
  let f : MongoFilter := { analysisPassed := true }
  let f := match query.date with
    | some d => { f with date := some d }
    | none => f
  let f := match query.platform with
    | some p => { f with platform := some p }
    | none => f
  let f := match query.min_score with
    | some s => { f with matchScoreGte := some s }
    | none => f
  let f := match query.location with
    | some loc => { f with orClause := some (locationOr loc) }
    | none => f
  let f := match query.employment_type with
    | some e => { f with employment_type := some e }
    | none => f
  let f := match query.work_arrangement with
    | some w => { f with work_arrangement := some w }
    | none => f
  let f := match query.q with
    | some kw => { f with orClause := some (keywordOr kw) }
    | none => f
  f

end FilteredJobService

/-! ## JSON values and `JSON.parse`

`GLMService.validateResponse` feeds the extracted span to `JSON.parse`.
We model JSON values with object member order preserved (as JS does) and
implement the JSON grammar as a fuel-based recursive-descent parser. -/

inductive Json where
  | null : Json
  | bool : Bool → Json
  | num : ℚ → Json
  | str : String → Json
  | arr : List Json → Json
  | obj : List (String × Json) → Json

/-- JSON whitespace. -/
def isWsChar (c : Char) : Bool :=
  c = ' ' || c = '\t' || c = '\n' || c = '\r'

/-- Drop leading JSON whitespace. -/
def skipWs : List Char → List Char
  | [] => []
  | c :: cs => if isWsChar c then skipWs cs else c :: cs

/-- Value of a hex digit, if any. -/
def hexVal (c : Char) : Option Nat :=
  if ('0' ≤ c ∧ c ≤ '9' : Prop) then some (c.toNat - 48)
  else if ('a' ≤ c ∧ c ≤ 'f' : Prop) then some (c.toNat - 87)
  else if ('A' ≤ c ∧ c ≤ 'F' : Prop) then some (c.toNat - 55)
  else none

/-- Parse the body of a JSON string literal (after the opening quote),
handling the escape sequences of the JSON grammar. -/
def pStr (fuel : Nat) (cs : List Char) (acc : List Char) :
    Option (String × List Char) :=
  match fuel, cs with
  | 0, _ => none
  | _, [] => none
  | fuel' + 1, c :: rest =>
    if c = '"' then some (String.mk acc.reverse, rest)
    else if c = '\\' then
      match rest with
      | [] => none
      | e :: rest2 =>
        if e = '"' then pStr fuel' rest2 ('"' :: acc)
        else if e = '\\' then pStr fuel' rest2 ('\\' :: acc)
        else if e = '/' then pStr fuel' rest2 ('/' :: acc)
        else if e = 'b' then pStr fuel' rest2 (Char.ofNat 8 :: acc)
        else if e = 'f' then pStr fuel' rest2 (Char.ofNat 12 :: acc)
        else if e = 'n' then pStr fuel' rest2 ('\n' :: acc)
        else if e = 'r' then pStr fuel' rest2 ('\r' :: acc)
        else if e = 't' then pStr fuel' rest2 ('\t' :: acc)
        else if e = 'u' then
          match rest2 with
          | h1 :: h2 :: h3 :: h4 :: r => do
            let v1 ← hexVal h1
            let v2 ← hexVal h2
            let v3 ← hexVal h3
            let v4 ← hexVal h4
            pStr fuel' r (Char.ofNat (v1 * 4096 + v2 * 256 + v3 * 16 + v4) :: acc)
          | _ => none
        else none
    else if c.toNat < 32 then none
    else pStr fuel' rest (c :: acc)

/-- Split off a maximal run of decimal digits. -/
def takeDigits (cs : List Char) : List Char × List Char :=
  cs.span Char.isDigit

/-- Decimal digits to a natural number. -/
def digitsToNat (ds : List Char) : Nat :=
  ds.foldl (fun a c => a * 10 + (c.toNat - 48)) 0

/-- Parse a JSON number (integer part, optional fraction, optional
exponent) into a rational. -/
def pNum (cs : List Char) : Option (Json × List Char) := do
  let (neg, cs1) :=
    match cs with
    | '-' :: rest => (true, rest)
    | _ => (false, cs)
  let (ip, cs2) := takeDigits cs1
  if ip.isEmpty then none else
  let (fr, cs3) ←
    match cs2 with
    | '.' :: rest =>
      let (ds, r) := takeDigits rest
      if ds.isEmpty then none else some (ds, r)
    | _ => some (([] : List Char), cs2)
  let (ex, cs4) ←
    match cs3 with
    | c :: rest =>
      if c = 'e' ∨ c = 'E' then
        match rest with
        | s :: rest2 =>
          if s = '+' ∨ s = '-' then
            let (ds, r) := takeDigits rest2
            if ds.isEmpty then none
            else if s = '-' then some (-(digitsToNat ds : Int), r)
            else some ((digitsToNat ds : Int), r)
          else
            let (ds, r) := takeDigits rest
            if ds.isEmpty then none else some ((digitsToNat ds : Int), r)
        | [] => none
      else some ((0 : Int), cs3)
    | [] => some ((0 : Int), cs3)
  let m : Int := (digitsToNat (ip ++ fr) : Int)
  let m := if neg then -m else m
  some (.num ((m : ℚ) * (10 : ℚ) ^ (ex - (fr.length : Int))), cs4)

/-- Insert a member into a JSON object under construction: a duplicate
key overwrites the value but keeps the original position (JS object
assignment semantics). -/
def objInsert (l : List (String × Json)) (k : String) (v : Json) :
    List (String × Json) :=
  match l with
  | [] => [(k, v)]
  | (k1, v1) :: rest =>
    if k1 = k then (k1, v) :: rest else (k1, v1) :: objInsert rest k v

mutual

/-- Parse a JSON value. -/
def pVal (fuel : Nat) (cs : List Char) : Option (Json × List Char) :=
  match fuel with
  | 0 => none
  | fuel' + 1 =>
    match skipWs cs with
    | 'n' :: 'u' :: 'l' :: 'l' :: rest => some (.null, rest)
    | 't' :: 'r' :: 'u' :: 'e' :: rest => some (.bool true, rest)
    | 'f' :: 'a' :: 'l' :: 's' :: 'e' :: rest => some (.bool false, rest)
    | '"' :: rest => (pStr (rest.length + 1) rest []).map (fun p => (.str p.1, p.2))
    | '[' :: rest => pArrStart fuel' rest
    | '{' :: rest => pObjStart fuel' rest
    | c :: rest =>
      if c = '-' || c.isDigit then pNum (c :: rest) else none
    | [] => none

/-- Parse an array body (after the opening bracket). -/
def pArrStart (fuel : Nat) (cs : List Char) : Option (Json × List Char) :=
  match fuel with
  | 0 => none
  | fuel' + 1 =>
    match skipWs cs with
    | ']' :: rest => some (.arr [], rest)
    | _ => pArrItems fuel' cs []

/-- Parse the comma-separated elements of a non-empty array. -/
def pArrItems (fuel : Nat) (cs : List Char) (acc : List Json) :
    Option (Json × List Char) :=
  match fuel with
  | 0 => none
  | fuel' + 1 => do
    let (v, r) ← pVal fuel' cs
    match skipWs r with
    | ',' :: r2 => pArrItems fuel' r2 (v :: acc)
    | ']' :: r2 => some (.arr (v :: acc).reverse, r2)
    | _ => none

/-- Parse an object body (after the opening brace). -/
def pObjStart (fuel : Nat) (cs : List Char) : Option (Json × List Char) :=
  match fuel with
  | 0 => none
  | fuel' + 1 =>
    match skipWs cs with
    | '}' :: rest => some (.obj [], rest)
    | _ => pObjItems fuel' cs []

/-- Parse the comma-separated members of a non-empty object. -/
def pObjItems (fuel : Nat) (cs : List Char) (acc : List (String × Json)) :
    Option (Json × List Char) :=
  match fuel with
  | 0 => none
  | fuel' + 1 =>
    match skipWs cs with
    | '"' :: rest => do
      let (k, r1) ← pStr (rest.length + 1) rest []
      match skipWs r1 with
      | ':' :: r2 => do
        let (v, r3) ← pVal fuel' r2
        let acc2 := objInsert acc k v
        match skipWs r3 with
        | ',' :: r4 => pObjItems fuel' r4 acc2
        | '}' :: r4 => some (.obj acc2, r4)
        | _ => none
      | _ => none
    | _ => none

end

/-- Model of `JSON.parse`: parse one JSON value, allowing only trailing
whitespace.  The fuel is an upper bound on recursion depth, generous
enough for any input of the given length. -/
def jsonParse (cs : List Char) : Option Json :=
  match pVal ((cs.length + 1) * 16) cs with
  | some (v, rest) => if skipWs rest = [] then some v else none
  | none => none

/-! ## GLMService (src/services/GLMService.ts) -/

namespace GLMService

/-- `GLMServiceError` from GLMService.ts. -/
structure GLMServiceError where
  code : String
  message : String
  retryable : Bool
deriving DecidableEq

/-- The structured analysis result as `validateResponse` returns it.
`skills` keeps whatever JSON value passed the `typeof === 'object'`
check; `jobKeywords` is the (possibly substituted) JSON array. -/
structure GLMAnalysisResult where
  skills : Json
  summary : String
  jobKeywords : Json

/-- Index of the last closing brace in the text, if any. -/
def lastCloseIdx (cs : List Char) : Option Nat :=
  match cs.reverse.findIdx? (fun c => c = '}') with
  | some k => some (cs.length - 1 - k)
  | none => none

/-- Model of `content.match(/\x7b[\s\S]*\x7d/)`: the regex is greedy, so
the match (when one exists) runs from the first opening brace to the
last closing brace of the whole text.  A match exists iff some opening
brace precedes some closing brace. -/
def braceSpan (cs : List Char) : Option (List Char) :=
  match cs.findIdx? (fun c => c = '{'), lastCloseIdx cs with
  | some i, some j =>
    if i < j then some ((cs.drop i).take (j - i + 1)) else none
  | _, _ => none

/-- Depth-counting scan used by `specFirstBalancedSpan`: consume
characters, tracking brace depth, until the opening brace is matched. -/
def balancedScan (depth : Nat) (acc : List Char) (cs : List Char) :
    Option (List Char) :=
  match cs with
  | [] => none
  | c :: rest =>
    if c = '{' then balancedScan (depth + 1) (c :: acc) rest
    else if c = '}' then
      if depth = 1 then some ((c :: acc).reverse)
      else balancedScan (depth - 1) (c :: acc) rest
    else balancedScan depth (c :: acc) rest

/-- Modelled from the spec: "Extract the first balanced `\x7b...\x7d`
JSON span found anywhere in the raw response text."  Scans to the first
opening brace, then returns the span up to the matching closing brace.
This is the spec's reading of the extraction step, kept for comparison
against `braceSpan`, the behaviour of the source's greedy regex. -/
def specFirstBalancedSpan (cs : List Char) : Option (List Char) :=
  match cs with
  | [] => none
  | c :: rest =>
    if c = '{' then balancedScan 1 [c] rest else specFirstBalancedSpan rest

/-- Field access on a parsed JSON value (`parsed.skills` etc.):
defined only on objects, `undefined` (`none`) otherwise. -/
def getField (j : Json) (k : String) : Option Json :=
  match j with
  | .obj members => lookupId members k
  | _ => none

/-- The check `parsed.skills && typeof parsed.skills === 'object'`:
truthy and of JS type object, i.e. an object or an array (null is
excluded by truthiness). -/
def isObjectTruthy : Json → Bool
  | .obj _ => true
  | .arr _ => true
  | _ => false

/-- The check `parsed.summary && typeof parsed.summary === 'string'`:
a non-empty string (the empty string is falsy). -/
def summaryString (j : Json) : Option String :=
  match getField j "summary" with
  | some (.str s) => if s = "" then none else some s
  | _ => none

/-- The fixed default list substituted for deficient `jobKeywords`. -/
def defaultJobKeywords : List Json :=
  [.str "Software Developer", .str "Software Engineer", .str "Full Stack Developer"]

/-- `Array.isArray(parsed.jobKeywords) && parsed.jobKeywords.length >= 3`
keeps the parsed array; anything else is replaced by the default list. -/
def jobKeywordsOf (j : Json) : Json :=
  match getField j "jobKeywords" with
  | some (.arr l) => if l.length < 3 then .arr defaultJobKeywords else .arr l
  | _ => .arr defaultJobKeywords

/-- The deficiency condition under which `validateResponse` substitutes
the default keyword list: `jobKeywords` missing, not an array, or with
fewer than 3 entries. -/
def jobKeywordsDeficient (j : Json) : Bool :=
  match getField j "jobKeywords" with
  | some (.arr l) => l.length < 3
  | _ => true

/-- The structural checks of `validateResponse` applied to the parsed
JSON value.  Validation errors are caught by the surrounding try/catch
and wrapped as retryable `INVALID_RESPONSE` errors. -/
def validateParsed (parsed : Json) : Except GLMServiceError GLMAnalysisResult :=
  match getField parsed "skills" with
  | some sk =>
    if isObjectTruthy sk then
      match summaryString parsed with
      | some sm =>
        .ok { skills := sk, summary := sm, jobKeywords := jobKeywordsOf parsed }
      | none =>
        .error { code := "INVALID_RESPONSE"
               , message := "Failed to parse GLM response: Invalid or missing summary in response"
               , retryable := true }
    else
      .error { code := "INVALID_RESPONSE"
             , message := "Failed to parse GLM response: Invalid or missing skills in response"
             , retryable := true }
  | none =>
    .error { code := "INVALID_RESPONSE"
           , message := "Failed to parse GLM response: Invalid or missing skills in response"
           , retryable := true }

/-- `GLMService.validateResponse`: regex-extract a JSON span, parse it,
check `skills` and `summary`, coerce `jobKeywords`.  The message text of
a `JSON.parse` syntax error varies by engine; a fixed stand-in is used. -/
def validateResponse (content : String) : Except GLMServiceError GLMAnalysisResult :=
  match braceSpan content.toList with
  | none =>
    .error { code := "INVALID_RESPONSE"
           , message := "Failed to parse GLM response: No JSON found in response"
           , retryable := true }
  | some span =>
    match jsonParse span with
    | none =>
      .error { code := "INVALID_RESPONSE"
             , message := "Failed to parse GLM response: Unexpected token"
             , retryable := true }
    | some parsed => validateParsed parsed

/-- `maxRetries = 3` from GLMService.ts. -/
def maxRetries : Nat := 3

/-- `baseDelay = 1000` (one second) from GLMService.ts. -/
def baseDelay : Nat := 1000

/-- `GLMService.retryWithBackoff`: run the attempt; on a retryable error
below the attempt cap, sleep `baseDelay * 2 ^ (attempt - 1)` ms and
recurse with `attempt + 1`.  Besides the final result we record the
sleeps performed and the number of invocations of `fn`. -/
def retryWithBackoff {α : Type} (fn : Nat → Except GLMServiceError α)
    (attempt : Nat) : Except GLMServiceError α × List Nat × Nat :=
  match fn attempt with
  | .ok v => (.ok v, [], 1)
  | .error e =>
    if h : attempt ≥ maxRetries ∨ ¬ e.retryable then (.error e, [], 1)
    else
      let d := baseDelay * 2 ^ (attempt - 1)
      let rest := retryWithBackoff fn (attempt + 1)
      (rest.1, d :: rest.2.1, rest.2.2 + 1)
termination_by maxRetries - attempt
decreasing_by
  rcases not_or.mp h with ⟨h1, _⟩
  simp only [maxRetries] at h1 ⊢
  omega

/-- One interaction with the remote completions endpoint: either a
transport/HTTP error carrying a code and message, or a reply whose
content is a raw string (the empty string models a missing content). -/
inductive RawOut where
  | netErr (code : String) (message : String)
  | reply (content : String)

/-- `leadsWith n h`: `n` is an initial segment of `h`. -/
def leadsWith : List Char → List Char → Bool
  | [], _ => true
  | _ :: _, [] => false
  | a :: as, b :: bs => a = b && leadsWith as bs

/-- Substring occurrence check over char lists. -/
def hasSubAux (needle hay : List Char) : Bool :=
  match hay with
  | [] => needle.isEmpty
  | _ :: rest => leadsWith needle hay || hasSubAux needle rest

/-- `hay.includes(needle)` for strings. -/
def strHasSub (hay needle : String) : Bool :=
  hasSubAux needle.toList hay.toList

/-- Model of the JS `String.prototype.trim`: strip leading and trailing
whitespace. -/
def jsTrim (s : String) : String :=
  String.mk (((s.toList.dropWhile isWsChar).reverse.dropWhile isWsChar).reverse)

/-- The catch block of the attempt closure in `GLMService.analyzeResume`:
an error without a `retryable` mark is classified by code and message
and wrapped as `ANALYSIS_FAILED`. -/
def classifyRawError (code message : String) : GLMServiceError :=
  { code := "ANALYSIS_FAILED"
  , message := if message = "" then "GLM API call failed" else message
  , retryable := code = "ETIMEDOUT" || code = "ECONNRESET" ||
      strHasSub message "timeout" || strHasSub message "rate limit" ||
      strHasSub message "network" }

/-- One attempt of the retried closure: call the endpoint, fail on empty
content, otherwise validate the reply.  Errors already carrying a
`retryable` mark (those of `validateResponse`) are rethrown as-is. -/
def glmAttempt (oracle : Nat → RawOut) (n : Nat) :
    Except GLMServiceError GLMAnalysisResult :=
  match oracle n with
  | .netErr c m => .error (classifyRawError c m)
  | .reply content =>
    if content = "" then
      .error (classifyRawError "" "Empty response from GLM API")
    else validateResponse content

/-- `GLMService.analyzeResume`: configuration gate, input-length
precondition, then the retried remote call.  Returns the result, the
backoff sleeps, and the number of remote invocations. -/
def analyzeResume (configured : Bool) (oracle : Nat → RawOut)
    (resumeText : String) :
    Except GLMServiceError GLMAnalysisResult × List Nat × Nat :=
  if ¬ configured then
    (.error { code := "API_NOT_CONFIGURED"
            , message := "GLM API not configured"
            , retryable := false }, [], 0)
  else if resumeText = "" || (jsTrim resumeText).length < 50 then
    (.error { code := "INVALID_INPUT"
            , message := "Resume text too short or empty"
            , retryable := false }, [], 0)
  else
    retryWithBackoff (glmAttempt oracle) 1

end GLMService

/-! ## ResumeController (src/controllers/resumeController.ts)

The controller sequences storage lookup, ownership check, analysis-record
lookup, extraction, remote analysis and record persistence.  The two
I/O collaborators with nontrivial behaviour — `GLMService.extractText`
and `GLMService.analyzeResume` — are passed in as oracles; everything
else is the controller's own logic, translated line by line.  Alongside
the response and the successor state we record how many extraction and
remote-analysis invocations the call performed. -/

namespace ResumeController

open ResumeService (ResumeMeta StoredFile FileStore)

/-- A persisted `ResumeAnalysis` document. -/
structure AnalysisRec where
  userId : String
  resumeId : String
  skills : List (String × Json)
  summary : String
  jobKeywords : Json

/-- The mutable state the resume endpoints read and write: the GridFS
files collection and the `ResumeAnalysis` collection. -/
structure St where
  files : FileStore
  analyses : List AnalysisRec

/-- Effect counters for one controller call. -/
structure Effects where
  extractions : Nat
  remoteCalls : Nat
deriving DecidableEq

/-- `ResumeAnalysis.findOne(\x7bresumeId\x7d)`: first stored record whose
`resumeId` matches. -/
def findAnalysis (l : List AnalysisRec) (rid : String) : Option AnalysisRec :=
  match l with
  | [] => none
  | a :: rest => if a.resumeId = rid then some a else findAnalysis rest rid

/-- `ResumeAnalysis.deleteOne(\x7bresumeId\x7d)`: remove the first record
whose `resumeId` matches. -/
def removeAnalysisOnce (l : List AnalysisRec) (rid : String) : List AnalysisRec :=
  match l with
  | [] => []
  | a :: rest => if a.resumeId = rid then rest else a :: removeAnalysisOnce rest rid

/-- `Object.entries(analysisResult.skills)`: members of an object in
insertion order; index/value pairs for an array. -/
def skillsEntries : Json → List (String × Json)
  | .obj members => members
  | .arr l => (l.enum.map (fun p => (toString p.1, p.2)))
  | _ => []

/-- Response of the analyze endpoint. -/
inductive AnalyzeResp where
  | ok (skills : List (String × Json)) (summary : String) (jobKeywords : Json)
  | err (status : Nat) (code : String) (message : String) (retryable : Bool)

/-- The catch block of `ResumeController.analyzeResume`: status 503 for
retryable `ANALYSIS_FAILED` errors, 500 otherwise; falsy code and
message fall back to defaults. -/
def analyzeCatch (e : GLMService.GLMServiceError) : AnalyzeResp :=
  let isR := e.code = "ANALYSIS_FAILED" && e.retryable
  .err (if isR then 503 else 500)
    (if e.code = "" then "ANALYSIS_FAILED" else e.code)
    (if e.message = "" then "Failed to analyze resume" else e.message)
    isR

/-- `ResumeController.analyzeResume` (POST /api/resume/analyze/:id). -/
def analyzeResume
    (extractO : List Nat → String → Except GLMService.GLMServiceError String)
    (glmO : String → Except GLMService.GLMServiceError GLMService.GLMAnalysisResult)
    (uid? : Option String) (rid : String) (s : St) :
    AnalyzeResp × St × Effects :=
  match uid? with
  | none => (.err 401 "UNAUTHORIZED" "User not authenticated" false, s, ⟨0, 0⟩)
  | some uid =>
    if ¬ validObjectIdStr rid then
      (analyzeCatch { code := ""
                    , message := "BSONError: input must be a 24 character hex string"
                    , retryable := false }, s, ⟨0, 0⟩)
    else
      match lookupId s.files rid with
      | none => (.err 404 "NOT_FOUND" "Resume not found" false, s, ⟨0, 0⟩)
      | some file =>
        if file.meta.userId ≠ uid then
          (.err 403 "FORBIDDEN" "Access denied" false, s, ⟨0, 0⟩)
        else
          match findAnalysis s.analyses rid with
          | some a => (.ok a.skills a.summary a.jobKeywords, s, ⟨0, 0⟩)
          | none =>
            match extractO file.bytes file.meta.mimeType with
            | .error e => (analyzeCatch e, s, ⟨1, 0⟩)
            | .ok text =>
              match glmO text with
              | .error e => (analyzeCatch e, s, ⟨1, 1⟩)
              | .ok res =>
                let skills := skillsEntries res.skills
                let newRec : AnalysisRec :=
                  { userId := uid, resumeId := rid, skills := skills
                  , summary := res.summary, jobKeywords := res.jobKeywords }
                (.ok skills res.summary res.jobKeywords,
                 { s with analyses := s.analyses ++ [newRec] }, ⟨1, 1⟩)

/-- Response of the metadata endpoint. -/
inductive GetResp where
  | ok (resumeId fileName : String) (uploadDate : Nat) (hasAnalysis : Bool)
       (analysis : Option (List (String × Json) × String × Json))
  | err (status : Nat) (code : String) (message : String) (retryable : Bool)

/-- `ResumeController.getResume` (GET /api/resume/:id). -/
def getResume (uid? : Option String) (rid : String) (s : St) : GetResp :=
  match uid? with
  | none => .err 401 "UNAUTHORIZED" "User not authenticated" false
  | some uid =>
    if ¬ validObjectIdStr rid then
      .err 500 "GET_FAILED" "BSONError: input must be a 24 character hex string" false
    else
      match lookupId s.files rid with
      | none => .err 404 "NOT_FOUND" "Resume not found" false
      | some file =>
        if file.meta.userId ≠ uid then
          .err 403 "FORBIDDEN" "Access denied" false
        else
          match findAnalysis s.analyses rid with
          | some a =>
            .ok rid file.meta.fileName file.meta.uploadDate true
              (some (a.skills, a.summary, a.jobKeywords))
          | none =>
            .ok rid file.meta.fileName file.meta.uploadDate false none

/-- Response of the delete endpoint. -/
inductive DeleteResp where
  | ok (message : String)
  | err (status : Nat) (code : String) (message : String) (retryable : Bool)

/-- `ResumeController.deleteResume` (DELETE /api/resume/:id). -/
def deleteResume (uid? : Option String) (rid : String) (s : St) :
    DeleteResp × St :=
  match uid? with
  | none => (.err 401 "UNAUTHORIZED" "User not authenticated" false, s)
  | some uid =>
    if ¬ validObjectIdStr rid then
      (.err 500 "DELETE_FAILED" "BSONError: input must be a 24 character hex string" false, s)
    else
      match lookupId s.files rid with
      | none => (.err 404 "NOT_FOUND" "Resume not found" false, s)
      | some file =>
        if file.meta.userId ≠ uid then
          (.err 403 "FORBIDDEN" "Access denied" false, s)
        else
          match ResumeService.deleteResume s.files rid with
          | .error m => (.err 500 "DELETE_FAILED" m false, s)
          | .ok files2 =>
            (.ok "Resume deleted successfully",
             { files := files2, analyses := removeAnalysisOnce s.analyses rid })

end ResumeController

/-! ## Concrete response fixtures -/

/-- A well-formed analysis reply: one JSON object, valid `skills`,
`summary` and `jobKeywords`. -/
def goodSpan : String :=
  "\x7b\"skills\":\x7b\x7d,\"summary\":\"hi\",\"jobKeywords\":[\"a\",\"b\",\"c\"]\x7d"

/-- The parse of `goodSpan`. -/
def goodJson : Json :=
  .obj [ ("skills", .obj [])
       , ("summary", .str "hi")
       , ("jobKeywords", .arr [.str "a", .str "b", .str "c"]) ]

/-- A raw reply consisting of `goodSpan` followed by trailing commentary
that itself contains a brace pair. -/
def cexContent : String :=
  "\x7b\"skills\":\x7b\x7d,\"summary\":\"hi\",\"jobKeywords\":[\"a\",\"b\",\"c\"]\x7d Note: \x7bok\x7d"

/-! ## Theorems -/

set_option linter.unnecessarySeqFocus false in
/-- C6: `validateFile` accepts a file iff its byte size is at most the
fixed 5 MiB ceiling and its declared MIME type is on the allow-list;
exactly 5 MiB + 1 bytes fails with the FileTooLarge message; a
disallowed MIME type is never accepted, whatever the size.  The
embedding is a pure function of the file's declared size and type, so
the check has no side effects. -/
theorem C6_validateFile_policy (f : ResumeService.MFile) :
    (ResumeService.validateFile f = .ok () ↔
      f.size ≤ 5 * 1024 * 1024 ∧ f.mimetype ∈ ResumeService.ALLOWED_MIME_TYPES) ∧
    (f.size = 5 * 1024 * 1024 + 1 →
      ResumeService.validateFile f = .error "File size exceeds 5MB limit") ∧
    (f.mimetype ∉ ResumeService.ALLOWED_MIME_TYPES →
      ∀ u, ResumeService.validateFile f ≠ .ok u) := by
  refine ⟨?_, ?_, ?_⟩
  · by_cases h1 : f.size > 5 * 1024 * 1024 <;>
      by_cases h2 : f.mimetype ∈ ResumeService.ALLOWED_MIME_TYPES <;>
      simp [ResumeService.validateFile, ResumeService.MAX_FILE_SIZE, h1, h2] <;>
      try omega
  · intro hsz
    have h1 : f.size > ResumeService.MAX_FILE_SIZE := by
      simp only [ResumeService.MAX_FILE_SIZE]
      omega
    simp [ResumeService.validateFile, h1]
  · intro hmem u
    by_cases h1 : f.size > 5 * 1024 * 1024 <;>
      simp [ResumeService.validateFile, ResumeService.MAX_FILE_SIZE, h1, hmem]

/-- C6 witness: a 5 MiB PDF passes, instantiating the boundary side of
the policy. -/
theorem C6_validateFile_policy_witness :
    ResumeService.validateFile
      { originalname := "resume.pdf", mimetype := "application/pdf"
      , size := 5 * 1024 * 1024 } = .ok () ∧
    ResumeService.validateFile
      { originalname := "resume.pdf", mimetype := "application/pdf"
      , size := 5 * 1024 * 1024 + 1 } = .error "File size exceeds 5MB limit" := by
  constructor
  · exact (C6_validateFile_policy _).1.mpr ⟨by norm_num, by decide⟩
  · exact (C6_validateFile_policy _).2.1 rfl

/-- C7 (code bug): `getResumeById` builds `new ObjectId(resumeId)` before
querying, so a malformed id raises a `BSONError` instead of resolving to
`null`; a well-formed unknown id resolves to `null`.  Malformed and
unknown ids are therefore observably different, contrary to the spec and
to the service's own test ("should return null for invalid ObjectId"). -/
theorem C7_getResumeById_malformed_id_throws :
    (∀ store : ResumeService.FileStore,
      ResumeService.getResumeById store "invalid-id" =
        .error "BSONError: input must be a 24 character hex string") ∧
    ResumeService.getResumeById [] "507f1f77bcf86cd799439011" = .ok none := by
  exact ⟨fun _ => rfl, rfl⟩

/-- C8 (code bug): deleting a stored id succeeds, but deleting an id
that names no stored document propagates the driver's
"File not found for id ..." error rather than completing as a no-op, so
deleting the same document twice fails the second time — contrary to the
spec and to the service's own test ("should handle deleting non-existent
file"). -/
theorem C8_delete_nonexistent_errors :
    (ResumeService.deleteResume
        [("507f1f77bcf86cd799439011",
          { meta := { fileName := "test.pdf", userId := "user123"
                    , mimeType := "application/pdf", uploadDate := 0 }
          , bytes := [1, 2, 3] })] "507f1f77bcf86cd799439011" = .ok []) ∧
    ResumeService.deleteResume [] "507f1f77bcf86cd799439011" =
      .error "File not found for id 507f1f77bcf86cd799439011" := by
  exact ⟨rfl, rfl⟩

/-- C10: when a query carries both a location filter and a free-text
keyword, the keyword block's `$or` assignment overwrites the location
block's `$or`, so the constructed filter equals the filter built from
the keyword alone — the location constraint is silently dropped. -/
theorem C10_keyword_overwrites_location
    (query : FilteredJobService.FilteredJobQuery) (kw loc : String)
    (hq : query.q = some kw) (hloc : query.location = some loc) :
    FilteredJobService.buildFilter query =
      FilteredJobService.buildFilter { query with location := none } ∧
    (FilteredJobService.buildFilter query).orClause =
      some (FilteredJobService.keywordOr kw) := by
  obtain ⟨q, l, et, wa, pf, ms, dt⟩ := query
  simp only at hq hloc
  subst hq hloc
  cases dt <;> cases pf <;> cases ms <;> cases et <;> cases wa <;>
    simp [FilteredJobService.buildFilter]

/-- C10 witness: a concrete query with `location = "Sydney"` and
`q = "engineer"` yields the same filter as the query without the
location, with the keyword `$or` in place. -/
theorem C10_keyword_overwrites_location_witness :
    FilteredJobService.buildFilter
        { q := some "engineer", location := some "Sydney" } =
      FilteredJobService.buildFilter { q := some "engineer" } ∧
    (FilteredJobService.buildFilter
        { q := some "engineer", location := some "Sydney" }).orClause =
      some (FilteredJobService.keywordOr "engineer") := by
  exact C10_keyword_overwrites_location _ "engineer" "Sydney" rfl rfl

/-- C2: against an attempt closure that fails every time with an error
marked retryable, `retryWithBackoff` starting from attempt 1 invokes the
closure exactly 3 times (`maxRetries`), sleeps `baseDelay * 2^(n-1)` ms
before attempt n+1 — i.e. 1000 ms then 2000 ms — and surfaces the third
attempt's error object unmodified, still marked retryable. -/
theorem C2_retry_exhaustion {α : Type}
    (fn : Nat → Except GLMService.GLMServiceError α)
    (h : ∀ n, ∃ e, fn n = .error e ∧ e.retryable = true)
    (e3 : GLMService.GLMServiceError) (h3 : fn 3 = .error e3) :
    GLMService.retryWithBackoff fn 1 = (.error e3, [1000, 2000], 3) ∧
      e3.retryable = true := by
  obtain ⟨e1, he1, hr1⟩ := h 1
  obtain ⟨e2, he2, hr2⟩ := h 2
  have hr3 : e3.retryable = true := by
    obtain ⟨e3', he3', hr3'⟩ := h 3
    rw [h3] at he3'
    cases he3'
    exact hr3'
  refine ⟨?_, hr3⟩
  rw [GLMService.retryWithBackoff]
  simp only [he1, hr1, GLMService.maxRetries, GLMService.baseDelay]
  rw [GLMService.retryWithBackoff]
  simp only [he2, hr2, GLMService.maxRetries, GLMService.baseDelay]
  rw [GLMService.retryWithBackoff]
  simp only [h3, hr3, GLMService.maxRetries, GLMService.baseDelay]
  norm_num

/-- C2 witness: a closure that always fails with a retryable timeout is
invoked 3 times, with sleeps of 1000 and 2000 ms, and the timeout error
is surfaced as-is. -/
theorem C2_retry_exhaustion_witness :
    GLMService.retryWithBackoff
        (fun _ => (.error ⟨"ETIMEDOUT", "timeout", true⟩ :
          Except GLMService.GLMServiceError Nat)) 1 =
      (.error ⟨"ETIMEDOUT", "timeout", true⟩, [1000, 2000], 3) ∧
    (⟨"ETIMEDOUT", "timeout", true⟩ : GLMService.GLMServiceError).retryable = true :=
  C2_retry_exhaustion _ (fun _ => ⟨_, rfl, rfl⟩) _ rfl

/-- Every error produced by the post-parse checks of `validateResponse`
carries code `INVALID_RESPONSE`. -/
theorem validateParsed_error_code {j : Json} {e : GLMService.GLMServiceError}
    (h : GLMService.validateParsed j = .error e) : e.code = "INVALID_RESPONSE" := by
  unfold GLMService.validateParsed at h
  split at h
  · split at h
    · split at h
      · exact absurd h (by simp)
      · injection h with h2
        subst h2
        rfl
    · injection h with h2
      subst h2
      rfl
  · injection h with h2
    subst h2
    rfl

/-- Every error produced by `validateResponse` carries code
`INVALID_RESPONSE`. -/
theorem validateResponse_error_code {content : String} {e : GLMService.GLMServiceError}
    (h : GLMService.validateResponse content = .error e) :
    e.code = "INVALID_RESPONSE" := by
  unfold GLMService.validateResponse at h
  split at h
  · injection h with h2
    subst h2
    rfl
  · split at h
    · injection h with h2
      subst h2
      rfl
    · exact validateParsed_error_code h

/-- An error surfaced by `retryWithBackoff` was produced by some
invocation of the attempt closure. -/
theorem retryWB_error_from_attempt {α : Type}
    (fn : Nat → Except GLMService.GLMServiceError α) :
    ∀ (k a : Nat) (e : GLMService.GLMServiceError),
      GLMService.maxRetries - a ≤ k →
      (GLMService.retryWithBackoff fn a).1 = .error e →
      ∃ m, fn m = .error e := by
  intro k
  induction k with
  | zero =>
    intro a e hk h
    rw [GLMService.retryWithBackoff] at h
    cases hfa : fn a with
    | ok v => simp [hfa] at h
    | error e1 =>
      simp only [hfa] at h
      rw [dif_pos (Or.inl (show a ≥ GLMService.maxRetries by
        simp only [GLMService.maxRetries] at hk ⊢
        omega))] at h
      simp at h
      exact ⟨a, by rw [hfa, h]⟩
  | succ k ih =>
    intro a e hk h
    rw [GLMService.retryWithBackoff] at h
    cases hfa : fn a with
    | ok v => simp [hfa] at h
    | error e1 =>
      simp only [hfa] at h
      by_cases hg : a ≥ GLMService.maxRetries ∨ ¬ e1.retryable = true
      · rw [dif_pos hg] at h
        simp at h
        exact ⟨a, by rw [hfa, h]⟩
      · rw [dif_neg hg] at h
        simp only at h
        refine ih (a + 1) e ?_ h
        push_neg at hg
        simp only [GLMService.maxRetries] at hk ⊢
        omega

/-- Every error produced by one attempt of the remote call carries code
`ANALYSIS_FAILED` (classified transport errors, empty replies) or
`INVALID_RESPONSE` (validation failures). -/
theorem glmAttempt_error_code {oracle : Nat → GLMService.RawOut} {n : Nat}
    {e : GLMService.GLMServiceError}
    (h : GLMService.glmAttempt oracle n = .error e) :
    e.code = "ANALYSIS_FAILED" ∨ e.code = "INVALID_RESPONSE" := by
  unfold GLMService.glmAttempt at h
  split at h
  · injection h with h2
    subst h2
    exact Or.inl rfl
  · split at h
    · injection h with h2
      subst h2
      exact Or.inl rfl
    · exact Or.inr (validateResponse_error_code h)

/-- C9: with the client configured, `analyzeResume` fails with a
non-retryable `INVALID_INPUT` error — making no remote call (zero
invocations, no sleeps) — exactly on input text that is empty or shorter
than 50 characters after trimming; on trimmed input of 50 characters or
more, no `INVALID_INPUT` failure can occur. -/
theorem C9_input_precondition (oracle : Nat → GLMService.RawOut) (text : String) :
    ((text = "" ∨ (GLMService.jsTrim text).length < 50) →
      GLMService.analyzeResume true oracle text =
        (.error ⟨"INVALID_INPUT", "Resume text too short or empty", false⟩, [], 0)) ∧
    (50 ≤ (GLMService.jsTrim text).length →
      ∀ e, (GLMService.analyzeResume true oracle text).1 = .error e →
        e.code ≠ "INVALID_INPUT") := by
  constructor
  · intro hshort
    rcases hshort with h | h
    · simp [GLMService.analyzeResume, h]
    · simp [GLMService.analyzeResume, h]
  · intro hlen e herr
    have hne : ¬ (text = "") := by
      intro h
      subst h
      have h0 : (GLMService.jsTrim "").length = 0 := rfl
      omega
    have hnl : ¬ ((GLMService.jsTrim text).length < 50) := by omega
    unfold GLMService.analyzeResume at herr
    simp only [hne, hnl] at herr
    simp at herr
    obtain ⟨m, hm⟩ :=
      retryWB_error_from_attempt (GLMService.glmAttempt oracle)
        GLMService.maxRetries 1 e (by omega) herr
    rcases glmAttempt_error_code hm with h | h <;> simp [h]

/-- C9 witness: a 10-character input fails `INVALID_INPUT` with no
remote call; on a 60-character input, the surfaced error (from an
always-failing endpoint) is not `INVALID_INPUT`. -/
theorem C9_input_precondition_witness :
    (GLMService.analyzeResume true (fun _ => .reply "") "curriculum" =
      (.error ⟨"INVALID_INPUT", "Resume text too short or empty", false⟩, [], 0)) ∧
    (∀ e, (GLMService.analyzeResume true (fun _ => .reply "")
        "experienced backend engineer with ten years of node and go").1 = .error e →
      e.code ≠ "INVALID_INPUT") := by
  constructor
  · exact (C9_input_precondition _ "curriculum").1 (Or.inr (by decide))
  · exact (C9_input_precondition _ _).2 (by decide)

/-- The substituted or retained `jobKeywords` value is always an array
of at least 3 entries. -/
theorem jobKeywordsOf_min (j : Json) :
    ∃ l, GLMService.jobKeywordsOf j = .arr l ∧ 3 ≤ l.length := by
  unfold GLMService.jobKeywordsOf
  split
  · split
    · exact ⟨GLMService.defaultJobKeywords, rfl, by decide⟩
    · rename_i l _ hlt
      exact ⟨l, rfl, by omega⟩
  · exact ⟨GLMService.defaultJobKeywords, rfl, by decide⟩

/-- When the deficiency condition holds, the default list is what gets
substituted. -/
theorem jobKeywordsOf_deficient {j : Json}
    (h : GLMService.jobKeywordsDeficient j = true) :
    GLMService.jobKeywordsOf j = .arr GLMService.defaultJobKeywords := by
  unfold GLMService.jobKeywordsDeficient at h
  unfold GLMService.jobKeywordsOf
  split at h
  · simp only [decide_eq_true_eq] at h
    simp [h]
  · rfl

/-- C4: every accepted analysis result has `jobKeywords` an array of at
least 3 entries; and whenever the parsed `jobKeywords` is missing, not a
list, or shorter than 3 — with `skills` and `summary` otherwise valid —
the fixed default 3-item list is substituted and the call succeeds
rather than failing. -/
theorem C4_jobKeywords_minimum :
    (∀ content r, GLMService.validateResponse content = .ok r →
      ∃ l, r.jobKeywords = Json.arr l ∧ 3 ≤ l.length) ∧
    (∀ content span parsed sk sm,
      GLMService.braceSpan content.toList = some span →
      jsonParse span = some parsed →
      GLMService.getField parsed "skills" = some sk →
      GLMService.isObjectTruthy sk = true →
      GLMService.summaryString parsed = some sm →
      GLMService.jobKeywordsDeficient parsed = true →
      GLMService.validateResponse content =
        .ok ⟨sk, sm, .arr GLMService.defaultJobKeywords⟩) := by
  constructor
  · intro content r h
    unfold GLMService.validateResponse at h
    split at h
    · exact absurd h (by simp)
    · split at h
      · exact absurd h (by simp)
      · unfold GLMService.validateParsed at h
        split at h
        · split at h
          · split at h
            · injection h with h2
              subst h2
              simpa using jobKeywordsOf_min _
            · exact absurd h (by simp)
          · exact absurd h (by simp)
        · exact absurd h (by simp)
  · intro content span parsed sk sm h1 h2 h3 h4 h5 h6
    unfold GLMService.validateResponse
    rw [h1]
    simp only [h2]
    unfold GLMService.validateParsed
    rw [h3]
    simp only [h4, if_true]
    rw [h5]
    rw [jobKeywordsOf_deficient h6]

/-- C4 witness: a reply whose `jobKeywords` has a single entry is
accepted with the default 3-item list substituted. -/
theorem C4_jobKeywords_minimum_witness :
    GLMService.validateResponse
        "\x7b\"skills\":\x7b\x7d,\"summary\":\"s\",\"jobKeywords\":[\"only\"]\x7d" =
      .ok ⟨.obj [], "s", .arr GLMService.defaultJobKeywords⟩ ∧
    ∃ l, (⟨.obj [], "s", .arr GLMService.defaultJobKeywords⟩ :
        GLMService.GLMAnalysisResult).jobKeywords = Json.arr l ∧ 3 ≤ l.length := by
  have h := C4_jobKeywords_minimum.2
    "\x7b\"skills\":\x7b\x7d,\"summary\":\"s\",\"jobKeywords\":[\"only\"]\x7d"
    ("\x7b\"skills\":\x7b\x7d,\"summary\":\"s\",\"jobKeywords\":[\"only\"]\x7d".toList)
    (.obj [("skills", .obj []), ("summary", .str "s"), ("jobKeywords", .arr [.str "only"])])
    (.obj []) "s" (by decide) rfl rfl rfl rfl rfl
  exact ⟨h, C4_jobKeywords_minimum.1 _ _ h⟩

/-- The greedy regex span of `pre ++ js ++ post` is exactly `js` when
`pre` holds no opening brace, `post` no closing brace, and `js` starts
with an opening and ends with a closing brace. -/
theorem braceSpan_sandwich (pre js post : List Char)
    (hpre : ∀ c ∈ pre, c ≠ '{') (hpost : ∀ c ∈ post, c ≠ '}')
    (hh : js.head? = some '{') (hl : js.getLast? = some '}') :
    GLMService.braceSpan (pre ++ js ++ post) = some js := by
  obtain ⟨tl, htl⟩ : ∃ tl, js = '{' :: tl := by
    cases js with
    | nil => simp at hh
    | cons a t =>
      simp at hh
      exact ⟨t, by rw [hh]⟩
  have hrevh : js.reverse.head? = some '}' := by
    rw [List.head?_reverse]
    exact hl
  obtain ⟨tl2, htl2⟩ : ∃ tl2, js.reverse = '}' :: tl2 := by
    cases hrev : js.reverse with
    | nil =>
      rw [hrev] at hrevh
      simp at hrevh
    | cons a t =>
      rw [hrev] at hrevh
      simp at hrevh
      exact ⟨t, by rw [hrevh]⟩
  have hjs2 : 2 ≤ js.length := by
    rcases js with _ | ⟨a, _ | ⟨b, t⟩⟩
    · simp at hh
    · simp at hh hl
      subst hh
      exact absurd hl (by decide)
    · simp
  have hfirst : (pre ++ js ++ post).findIdx? (fun c => c = '{') = some pre.length := by
    have hpre0 : pre.findIdx? (fun c => c = '{') = none :=
      List.findIdx?_eq_none_iff.mpr (fun x hx => by simpa using hpre x hx)
    rw [List.append_assoc, List.findIdx?_append, hpre0, htl]
    simp
  have hlast : GLMService.lastCloseIdx (pre ++ js ++ post) =
      some (pre.length + (js.length - 1)) := by
    unfold GLMService.lastCloseIdx
    have hrw : (pre ++ js ++ post).reverse = post.reverse ++ (js.reverse ++ pre.reverse) := by
      simp
    rw [hrw]
    have hpost0 : post.reverse.findIdx? (fun c => c = '}') = none :=
      List.findIdx?_eq_none_iff.mpr
        (fun x hx => by simpa using hpost x (by simpa using hx))
    rw [List.findIdx?_append, hpost0, htl2]
    simp
    omega
  have hij : pre.length < pre.length + (js.length - 1) := by omega
  have h1 : (pre ++ js ++ post).drop pre.length = js ++ post := by
    rw [List.append_assoc]
    exact List.drop_left _ _
  have h2 : pre.length + (js.length - 1) - pre.length + 1 = js.length := by omega
  simp only [GLMService.braceSpan, hfirst, hlast]
  rw [if_pos hij, h1, h2]
  rw [List.take_left]

/-- C5 (amended): response validation extracts the span from the first
opening brace to the LAST closing brace of the raw text (the regex
`\x7b[\s\S]*\x7d` is greedy) — not the first balanced span.  It therefore
tolerates leading commentary containing no opening brace and trailing
commentary containing no closing brace, and fails with a retryable
`InvalidResponse` when no opening brace precedes a closing brace or when
the greedy span fails to parse. -/
theorem C5_greedy_span_extraction :
    (∀ (pre js post : List Char) (j : Json),
      (∀ c ∈ pre, c ≠ '{') → (∀ c ∈ post, c ≠ '}') →
      js.head? = some '{' → js.getLast? = some '}' →
      jsonParse js = some j →
      GLMService.validateResponse (String.mk (pre ++ js ++ post)) =
        GLMService.validateParsed j) ∧
    (∀ content, GLMService.braceSpan content.toList = none →
      GLMService.validateResponse content =
        .error ⟨"INVALID_RESPONSE",
          "Failed to parse GLM response: No JSON found in response", true⟩) ∧
    (∀ content span, GLMService.braceSpan content.toList = some span →
      jsonParse span = none →
      GLMService.validateResponse content =
        .error ⟨"INVALID_RESPONSE",
          "Failed to parse GLM response: Unexpected token", true⟩) := by
  refine ⟨?_, ?_, ?_⟩
  · intro pre js post j hpre hpost hh hl hparse
    unfold GLMService.validateResponse
    have htl : (String.mk (pre ++ js ++ post)).toList = pre ++ js ++ post := rfl
    rw [htl, braceSpan_sandwich pre js post hpre hpost hh hl]
    dsimp only
    rw [hparse]
  · intro content hnone
    unfold GLMService.validateResponse
    rw [hnone]
  · intro content span hspan hparse
    unfold GLMService.validateResponse
    rw [hspan]
    dsimp only
    rw [hparse]

/-- C5 counterexample: on `cexContent` the first balanced JSON span is
`goodSpan`, which parses and passes every validation check — so under
the claim the call would succeed — yet the code fails with a retryable
`INVALID_RESPONSE`, because the greedy regex swallows the trailing
commentary up to its closing brace and the resulting span is not JSON. -/
theorem C5_counterexample :
    GLMService.specFirstBalancedSpan cexContent.toList = some goodSpan.toList ∧
    GLMService.validateResponse goodSpan =
      .ok ⟨.obj [], "hi", .arr [.str "a", .str "b", .str "c"]⟩ ∧
    GLMService.validateResponse cexContent =
      .error ⟨"INVALID_RESPONSE",
        "Failed to parse GLM response: Unexpected token", true⟩ := by
  refine ⟨by decide, rfl, rfl⟩

/-- C5 witness: a reply with leading and (brace-free) trailing
commentary around `goodSpan` validates to the parse of `goodSpan`. -/
theorem C5_greedy_span_extraction_witness :
    GLMService.validateResponse
        (String.mk ("Sure! Here is the JSON: ".toList ++ goodSpan.toList ++
          " Hope this helps".toList)) =
      GLMService.validateParsed goodJson := by
  exact C5_greedy_span_extraction.1 _ _ _ goodJson
    (by decide) (by decide) (by decide) (by decide) rfl

/-- Appending a fresh record for `rid` to a collection that held none
makes `findOne` return exactly that record. -/
theorem findAnalysis_append_of_none {l : List ResumeController.AnalysisRec}
    {rid : String} {a : ResumeController.AnalysisRec}
    (h : ResumeController.findAnalysis l rid = none) (ha : a.resumeId = rid) :
    ResumeController.findAnalysis (l ++ [a]) rid = some a := by
  induction l with
  | nil =>
    simp [ResumeController.findAnalysis, ha]
  | cons b rest ih =>
    unfold ResumeController.findAnalysis at h
    split at h
    · exact absurd h (by simp)
    · rename_i hb
      rw [List.cons_append]
      unfold ResumeController.findAnalysis
      try dsimp only
      rw [if_neg (by simpa using hb)]
      exact ih h

/-- C1: if an invocation of the analyze endpoint succeeded — whether by
cache hit or by running the pipeline, in which case it persisted the
analysis record — then invoking it again in the resulting state returns
structured output identical to the first response, leaves the state
unchanged, and performs zero extraction and zero remote-analysis
invocations. -/
theorem C1_analysis_idempotent
    (eo : List Nat → String → Except GLMService.GLMServiceError String)
    (go : String → Except GLMService.GLMServiceError GLMService.GLMAnalysisResult)
    (uid rid : String) (s s1 : ResumeController.St)
    (sk : List (String × Json)) (sm : String) (jk : Json)
    (ef : ResumeController.Effects)
    (h : ResumeController.analyzeResume eo go (some uid) rid s =
      (.ok sk sm jk, s1, ef)) :
    ResumeController.analyzeResume eo go (some uid) rid s1 =
      (.ok sk sm jk, s1, ⟨0, 0⟩) := by
  unfold ResumeController.analyzeResume at h ⊢
  dsimp only at h ⊢
  split at h
  · exact absurd h (by simp [ResumeController.analyzeCatch])
  · rename_i hv
    split at h
    · exact absurd h (by simp)
    · rename_i file hfile
      split at h
      · exact absurd h (by simp)
      · rename_i hown
        split at h
        · -- cache hit on the first call
          rename_i a hfind
          have h1 := congrArg Prod.fst h
          have h2 := congrArg (fun p => p.2.1) h
          dsimp only at h1 h2
          injection h1 with hsk hsm hjk
          subst h2
          rw [if_neg hv]
          rw [hfile]
          try dsimp only
          rw [if_neg hown]
          rw [hfind]
          try dsimp only
          rw [hsk, hsm, hjk]
        · -- fresh analysis on the first call
          rename_i hfind
          split at h
          · exact absurd h (by simp [ResumeController.analyzeCatch])
          · rename_i text hext
            split at h
            · exact absurd h (by simp [ResumeController.analyzeCatch])
            · rename_i res hglm
              have h1 := congrArg Prod.fst h
              have h2 := congrArg (fun p => p.2.1) h
              dsimp only at h1 h2
              injection h1 with hsk hsm hjk
              subst h2
              rw [if_neg hv]
              try dsimp only
              rw [hfile]
              try dsimp only
              rw [if_neg hown]
              try dsimp only
              rw [findAnalysis_append_of_none hfind rfl]
              try dsimp only
              rw [hsk, hsm, hjk]

/-- C1 witness: with the analysis record persisted by a successful first
call, re-invoking the endpoint returns the identical structured output
with zero extraction and zero remote invocations. -/
theorem C1_analysis_idempotent_witness :
    ResumeController.analyzeResume
        (fun _ _ => .ok "extracted resume text")
        (fun _ => .ok ⟨.obj [("Programming Languages", .arr [.str "Go"])], "sum",
          .arr [.str "A", .str "B", .str "C"]⟩)
        (some "user1") "507f1f77bcf86cd799439011"
        { files := [("507f1f77bcf86cd799439011",
            { meta := { fileName := "resume.pdf", userId := "user1"
                      , mimeType := "application/pdf", uploadDate := 0 }
            , bytes := [1, 2] })]
        , analyses := [{ userId := "user1", resumeId := "507f1f77bcf86cd799439011"
                       , skills := [("Programming Languages", Json.arr [.str "Go"])]
                       , summary := "sum"
                       , jobKeywords := .arr [.str "A", .str "B", .str "C"] }] } =
      (.ok [("Programming Languages", Json.arr [.str "Go"])] "sum"
          (.arr [.str "A", .str "B", .str "C"]),
        { files := [("507f1f77bcf86cd799439011",
            { meta := { fileName := "resume.pdf", userId := "user1"
                      , mimeType := "application/pdf", uploadDate := 0 }
            , bytes := [1, 2] })]
        , analyses := [{ userId := "user1", resumeId := "507f1f77bcf86cd799439011"
                       , skills := [("Programming Languages", Json.arr [.str "Go"])]
                       , summary := "sum"
                       , jobKeywords := .arr [.str "A", .str "B", .str "C"] }] },
        ⟨0, 0⟩) := by
  exact C1_analysis_idempotent _ _ "user1" "507f1f77bcf86cd799439011"
    { files := [("507f1f77bcf86cd799439011",
        { meta := { fileName := "resume.pdf", userId := "user1"
                  , mimeType := "application/pdf", uploadDate := 0 }
        , bytes := [1, 2] })]
    , analyses := [] } _ _ _ _ ⟨1, 1⟩ rfl

/-- C3: for an existing document, a caller other than the owner gets the
403 FORBIDDEN envelope from each of the read, analyze and delete
endpoints — with the analyze call performing no extraction, no remote
invocation and no record creation — while for the owner no response with
status 403 is possible from any of the three. -/
theorem C3_ownership_enforcement
    (uid rid : String) (s : ResumeController.St) (file : ResumeService.StoredFile)
    (hv : validObjectIdStr rid = true)
    (hl : lookupId s.files rid = some file) :
    (file.meta.userId ≠ uid →
      ResumeController.getResume (some uid) rid s =
        .err 403 "FORBIDDEN" "Access denied" false ∧
      (∀ eo go, ResumeController.analyzeResume eo go (some uid) rid s =
        (.err 403 "FORBIDDEN" "Access denied" false, s, ⟨0, 0⟩)) ∧
      ResumeController.deleteResume (some uid) rid s =
        (.err 403 "FORBIDDEN" "Access denied" false, s)) ∧
    (file.meta.userId = uid →
      (∀ st c m r, ResumeController.getResume (some uid) rid s =
        .err st c m r → st ≠ 403) ∧
      (∀ eo go st c m r,
        (ResumeController.analyzeResume eo go (some uid) rid s).1 =
          .err st c m r → st ≠ 403) ∧
      (∀ st c m r, (ResumeController.deleteResume (some uid) rid s).1 =
        .err st c m r → st ≠ 403)) := by
  have hnv : ¬ ¬ (validObjectIdStr rid = true) := by simp [hv]
  constructor
  · intro hmis
    refine ⟨?_, ?_, ?_⟩
    · unfold ResumeController.getResume
      try dsimp only
      rw [if_neg hnv, hl]
      try dsimp only
      rw [if_pos hmis]
    · intro eo go
      unfold ResumeController.analyzeResume
      try dsimp only
      rw [if_neg hnv, hl]
      try dsimp only
      rw [if_pos hmis]
    · unfold ResumeController.deleteResume
      try dsimp only
      rw [if_neg hnv, hl]
      try dsimp only
      rw [if_pos hmis]
  · intro hown
    have hown2 : ¬ (file.meta.userId ≠ uid) := by simp [hown]
    refine ⟨?_, ?_, ?_⟩
    · intro st c m r hresp
      unfold ResumeController.getResume at hresp
      dsimp only at hresp
      rw [if_neg hnv, hl] at hresp
      dsimp only at hresp
      rw [if_neg hown2] at hresp
      split at hresp <;> exact absurd hresp (by simp)
    · intro eo go st c m r hresp
      unfold ResumeController.analyzeResume at hresp
      dsimp only at hresp
      rw [if_neg hnv, hl] at hresp
      dsimp only at hresp
      rw [if_neg hown2] at hresp
      split at hresp
      · exact absurd hresp (by simp)
      · split at hresp
        · dsimp only at hresp
          simp [ResumeController.analyzeCatch] at hresp
          obtain ⟨h1, -⟩ := hresp
          subst h1
          split <;> simp
        · split at hresp
          · dsimp only at hresp
            simp [ResumeController.analyzeCatch] at hresp
            obtain ⟨h1, -⟩ := hresp
            subst h1
            split <;> simp
          · exact absurd hresp (by simp)
    · intro st c m r hresp
      have hdel : ResumeService.deleteResume s.files rid =
          .ok (s.files.filter (fun p => p.1 ≠ rid)) := by
        unfold ResumeService.deleteResume ResumeService.gridfsDelete
        rw [if_neg hnv, if_pos (by simp [hl])]
      unfold ResumeController.deleteResume at hresp
      dsimp only at hresp
      rw [if_neg hnv, hl] at hresp
      dsimp only at hresp
      rw [if_neg hown2, hdel] at hresp
      exact absurd hresp (by simp)

/-- C3 witness: on a one-document store owned by "user1", the caller
"intruder" is refused with 403 by read, analyze and delete (analyze with
zero effects and unchanged state), while a read error with status 403 is
impossible for "user1". -/
theorem C3_ownership_enforcement_witness :
    (ResumeController.getResume (some "intruder") "507f1f77bcf86cd799439011"
        { files := [("507f1f77bcf86cd799439011",
            { meta := { fileName := "resume.pdf", userId := "user1"
                      , mimeType := "application/pdf", uploadDate := 0 }
            , bytes := [1, 2] })]
        , analyses := [] } =
      .err 403 "FORBIDDEN" "Access denied" false) ∧
    (ResumeController.analyzeResume (fun _ _ => .ok "text")
        (fun _ => .error ⟨"ANALYSIS_FAILED", "boom", true⟩)
        (some "intruder") "507f1f77bcf86cd799439011"
        { files := [("507f1f77bcf86cd799439011",
            { meta := { fileName := "resume.pdf", userId := "user1"
                      , mimeType := "application/pdf", uploadDate := 0 }
            , bytes := [1, 2] })]
        , analyses := [] } =
      (.err 403 "FORBIDDEN" "Access denied" false,
        { files := [("507f1f77bcf86cd799439011",
            { meta := { fileName := "resume.pdf", userId := "user1"
                      , mimeType := "application/pdf", uploadDate := 0 }
            , bytes := [1, 2] })]
        , analyses := [] }, ⟨0, 0⟩)) ∧
    (∀ st c m r, ResumeController.getResume (some "user1") "507f1f77bcf86cd799439011"
        { files := [("507f1f77bcf86cd799439011",
            { meta := { fileName := "resume.pdf", userId := "user1"
                      , mimeType := "application/pdf", uploadDate := 0 }
            , bytes := [1, 2] })]
        , analyses := [] } = .err st c m r → st ≠ 403) := by
  have hi := C3_ownership_enforcement "intruder" "507f1f77bcf86cd799439011"
    { files := [("507f1f77bcf86cd799439011",
        { meta := { fileName := "resume.pdf", userId := "user1"
                  , mimeType := "application/pdf", uploadDate := 0 }
        , bytes := [1, 2] })]
    , analyses := [] }
    { meta := { fileName := "resume.pdf", userId := "user1"
              , mimeType := "application/pdf", uploadDate := 0 }
    , bytes := [1, 2] } (by decide) rfl
  have ho := C3_ownership_enforcement "user1" "507f1f77bcf86cd799439011"
    { files := [("507f1f77bcf86cd799439011",
        { meta := { fileName := "resume.pdf", userId := "user1"
                  , mimeType := "application/pdf", uploadDate := 0 }
        , bytes := [1, 2] })]
    , analyses := [] }
    { meta := { fileName := "resume.pdf", userId := "user1"
              , mimeType := "application/pdf", uploadDate := 0 }
    , bytes := [1, 2] } (by decide) rfl
  exact ⟨(hi.1 (by decide)).1, (hi.1 (by decide)).2.1 _ _, (ho.2 rfl).1⟩
